import Mathlib

/-!
Shallow embedding of `src/js/script.js` — the client-side interaction layer of a
static personal-portfolio website (single-page hash navigation, a modal PDF
viewer, expandable institution/project cards with row-synchronised expansion,
and console-log analytics stubs).

Modelling conventions:
* A DOM element's `classList` is a `List String`; `classList.add` / `remove`
  become `addClass` / `removeClass`.
* `getBoundingClientRect().top` is a rational number (JS numbers carry no
  overflow here); `Math.floor` is `Rat.floor`.
* A card's optional `.modules-content` descendant is `Option String` holding its
  inline `display` style, and its optional `.expand-icon i` descendant is
  `Option String` holding its inline `transform` style.
* In-place `forEach` mutation over a filtered array is rendered both as the
  updated whole list (`expandRowUpdate`, `collapseRowUpdate`) and as the array
  the JS function returns (`expandCardsInRow`, `collapseCardsInRow`).
* Side channels (`alert`, `console.log`, `window.open`) are reified as a list of
  `Effect` values returned next to the new state.
-/

namespace Portfolio

/-- Model of `classList.add c`: appends `c` unless the class list already contains it. -/
def addClass (cs : List String) (c : String) : List String :=
  if cs.contains c then cs else cs ++ [c]

/-- Model of `classList.remove c`: drops every occurrence of `c`. -/
def removeClass (cs : List String) (c : String) : List String :=
  cs.filter (fun x => x ≠ c)

/-!  ## Cards (institution / project cards)  -/

/-- An institution/project card as the script observes it: its bounding-box
`top`, its class list, its optional `.modules-content` descendant (inline
`display` style), its optional `.expand-icon i` descendant (inline `transform`
style), whether `card.closest('.projects-grid')` is non-null, whether the card
matches `querySelectorAll('.work-card')`, whether it has an
`.institution-header` descendant, and its `data-institution` attribute
(`none` when absent). -/
structure Card where
  top : ℚ
  classes : List String
  modulesContent : Option String
  expandIcon : Option String
  inProjectsGrid : Bool
  isWorkCard : Bool
  hasHeader : Bool
  dataInstitution : Option String
deriving DecidableEq, Repr

/-- The row test inside `getCardsInSameRow`: with `targetRow = Math.floor(targetRect.top)`
and `cardRow = Math.floor(cardRect.top)`, keep the card when
`Math.abs(targetRow - cardRow) <= 50` (the `tolerance` constant). -/
def inSameRow (targetCard card : Card) : Bool :=
  |targetCard.top.floor - card.top.floor| ≤ 50

/-- Source `getCardsInSameRow(targetCard, allCards)`: filters
`allCards` down to those whose floored `top` is within the tolerance of the
target's floored `top`. -/
def getCardsInSameRow (targetCard : Card) (allCards : List Card) : List Card :=
  allCards.filter (fun card => inSameRow targetCard card)

/-- The body of the `forEach` in `expandCardsInRow`: if the card is not already
`expanded` and has both a `.modules-content` and an `.expand-icon i` descendant,
add the `expanded` class, set the content's display to `block` and rotate the
icon; otherwise leave the card untouched. -/
def expandCard (card : Card) : Card :=
  if card.classes.contains "expanded" then card
  else
    match card.modulesContent, card.expandIcon with
    | some _, some _ =>
        { card with
          classes := addClass card.classes "expanded"
          modulesContent := some "block"
          expandIcon := some "rotate(180deg)" }
    | _, _ => card

/-- The body of the `forEach` in `collapseCardsInRow`: if the card is `expanded`
and has both descendants, remove the class, hide the content and un-rotate the
icon; otherwise leave the card untouched. -/
def collapseCard (card : Card) : Card :=
  if card.classes.contains "expanded" then
    match card.modulesContent, card.expandIcon with
    | some _, some _ =>
        { card with
          classes := removeClass card.classes "expanded"
          modulesContent := some "none"
          expandIcon := some "rotate(0deg)" }
    | _, _ => card
  else card

/-- Source `expandCardsInRow(targetCard, allCards)`: the array of row cards the JS
function returns, after the in-place mutation of each of its members. -/
def expandCardsInRow (targetCard : Card) (allCards : List Card) : List Card :=
  (getCardsInSameRow targetCard allCards).map expandCard

/-- The effect of `expandCardsInRow` on the whole card collection: the row
cards are mutated in place, every other card is untouched. -/
def expandRowUpdate (targetCard : Card) (allCards : List Card) : List Card :=
  allCards.map (fun card => if inSameRow targetCard card then expandCard card else card)

/-- Source `collapseCardsInRow(targetCard, allCards)`: the returned row cards after
mutation. -/
def collapseCardsInRow (targetCard : Card) (allCards : List Card) : List Card :=
  (getCardsInSameRow targetCard allCards).map collapseCard

/-- The effect of `collapseCardsInRow` on the whole card collection. -/
def collapseRowUpdate (targetCard : Card) (allCards : List Card) : List Card :=
  allCards.map (fun card => if inSameRow targetCard card then collapseCard card else card)

/-- The non-projects-grid branch of `toggleInstitutionCard`: toggle the
`expanded` class and the two descendants' inline styles on the clicked card
alone.  (`script.js` dereferences the descendants without a null check here, so
a card lacking one of them would throw; the theorems below only evaluate this
on cards that have both, matching the pages the script is served with.) -/
def toggleNonProjectCard (card : Card) : Card :=
  if card.classes.contains "expanded" then
    { card with
      classes := removeClass card.classes "expanded"
      modulesContent := card.modulesContent.map (fun _ => "none")
      expandIcon := card.expandIcon.map (fun _ => "rotate(0deg)") }
  else
    { card with
      classes := addClass card.classes "expanded"
      modulesContent := card.modulesContent.map (fun _ => "block")
      expandIcon := card.expandIcon.map (fun _ => "rotate(180deg)") }

/-- Source `toggleInstitutionCard(card)`, acting on the collection of all institution
cards, the clicked card given by its index.  For a card inside
`.projects-grid` the whole row of projects-grid cards is collapsed or expanded
(`collapseCardsInRow` / `expandCardsInRow` over
`querySelectorAll('.projects-grid .project-card')`); otherwise only the clicked
card is toggled.  The wrapper installed at the end of `script.js` additionally
schedules stagger animations (inline opacity/transform styles of
`.module-item` / `.action-button` descendants of the affected cards) and a
smooth scroll on collapse; neither changes the fields modelled here. -/
def toggleInstitutionCard (i : Nat) (cards : List Card) : List Card :=
  match cards[i]? with
  | none => cards
  | some card =>
    if card.inProjectsGrid then
      if card.classes.contains "expanded" then
        cards.map (fun c => if c.inProjectsGrid && inSameRow card c then collapseCard c else c)
      else
        cards.map (fun c => if c.inProjectsGrid && inSameRow card c then expandCard c else c)
    else
      cards.set i (toggleNonProjectCard card)

/-- The work-card styling loop of the DOMContentLoaded setup
(`workCards.forEach` at `script.js:406-423`): every `.work-card` with an
`.institution-header` whose `data-institution` attribute is `risk-analyst`
receives the `current-role` class.  (The loop also registers tracking
listeners; its `.training-name` read is display-only.) -/
def markCurrentRole (cards : List Card) : List Card :=
  cards.map (fun card =>
    if card.isWorkCard && card.hasHeader
        && card.dataInstitution == some "risk-analyst" then
      { card with classes := addClass card.classes "current-role" }
    else card)

/-!  ## Pages and navigation  -/

/-- A `.page-content` element: its `id` attribute and its class list. -/
structure Page where
  id : String
  classes : List String
deriving DecidableEq, Repr

/-- The `allPages.forEach(page => page.classList.remove('active'))` loop at the
top of `switchToPage`. -/
def clearActive (pages : List Page) : List Page :=
  pages.map (fun p => { p with classes := removeClass p.classes "active" })

/-- Model of `document.getElementById(targetPageId)` followed by
`targetPage.classList.add('active')`: the first element with the given id (if
any) receives the class; everything else is untouched. -/
def addActiveById (tid : String) : List Page → List Page
  | [] => []
  | p :: ps =>
    if p.id = tid then { p with classes := addClass p.classes "active" } :: ps
    else p :: addActiveById tid ps

/-- Source `switchToPage(targetPageId)`, restricted to its effect on the page elements:
remove `active` everywhere, then add it to the element with the target id. -/
def switchToPage (tid : String) (pages : List Page) : List Page :=
  addActiveById tid (clearActive pages)

/-!  ## Modal state and effects  -/

/-- The modal-related mutable state: `documentModal.style.display`,
`pdfViewerFrame.src`, and `document.body.style.overflow`. -/
structure ModalState where
  modalDisplay : String
  viewerSrc : String
  bodyOverflow : String
deriving DecidableEq, Repr

/-- Observable side channels of the script: `alert(...)`, `console.log(...)`,
and `window.open(url, '_blank', features)`. -/
inductive Effect where
  | alertShown (message : String)
  | consoleLogged (message : String)
  | windowOpened (url : String) (features : String)
deriving DecidableEq, Repr

/-- Whether an effect is an alert dialog. -/
def Effect.isAlert : Effect → Bool
  | .alertShown _ => true
  | _ => false

/-- Whether an effect is a console log. -/
def Effect.isLog : Effect → Bool
  | .consoleLogged _ => true
  | _ => false

/-- JS truthiness of a string-or-missing value: `null`/`undefined` and the
empty string are falsy. -/
def falsyStr : Option String → Bool
  | none => true
  | some s => s.isEmpty

/-- The alert text in `openPdfModal` for a missing PDF path. -/
def pdfMissingAlertMsg : String :=
  "PDF document not yet available for this project. Please check back later or contact me for more information."

/-- The alert text in `openGitHubRepository` for a missing URL. -/
def githubMissingAlertMsg : String :=
  "GitHub repository not yet available for this project. Please check back later."

/-- Source `openPdfModal(pdfPath)`: a falsy path alerts and returns without touching
any state; otherwise the modal is displayed (`flex`), the path is logged and
loaded into the viewer, background scrolling is disabled (`hidden`), and
`showLoadingIndicator` logs. -/
def openPdfModal (pdfPath : Option String) (st : ModalState) : ModalState × List Effect :=
  match pdfPath with
  | none => (st, [.alertShown pdfMissingAlertMsg])
  | some p =>
    if p.isEmpty then (st, [.alertShown pdfMissingAlertMsg])
    else
      ({ modalDisplay := "flex", viewerSrc := p, bodyOverflow := "hidden" },
       [.consoleLogged ("Loading PDF from: " ++ p), .consoleLogged "Loading PDF..."])

/-- Source `openGitHubRepository(githubUrl)`: a falsy URL alerts; otherwise the URL is
opened in a new tab. -/
def openGitHubRepository (githubUrl : Option String) : List Effect :=
  match githubUrl with
  | none => [.alertShown githubMissingAlertMsg]
  | some u =>
    if u.isEmpty then [.alertShown githubMissingAlertMsg]
    else [.windowOpened u "noopener,noreferrer"]

/-- Source `closePdfModal()`: hides the modal, clears the viewer `src`, restores body
scrolling, and `hideLoadingIndicator` logs. -/
def closePdfModal (st : ModalState) : ModalState × List Effect :=
  ({ modalDisplay := "none", viewerSrc := "", bodyOverflow := "auto" },
   [.consoleLogged "PDF loaded"])

/-- The static fallback markup the `error` handler of `pdfViewerFrame` writes
into `pdfViewerFrame.parentElement.innerHTML` (HTML markup and whitespace of
the template literal condensed; the content is a fixed literal in the source). -/
def pdfLoadErrorFallback : String :=
  "Unable to load document. This document could not be loaded. " ++
  "Please try again later or contact me directly (mailto:sebdohne@gmail.com)."

/-- The `error` listener on `pdfViewerFrame`: replaces the viewer's parent
content with the static fallback, whatever it previously held. -/
def pdfFrameErrorHandler (prevParentInnerHTML : String) : String :=
  pdfLoadErrorFallback

/-- The global `window.addEventListener('error', ...)` handler: logs the error
and does nothing else. -/
def windowErrorHandler (err : String) : List Effect :=
  [.consoleLogged ("An error occurred: " ++ err)]

/-!  ## Whole-script state  -/

/-- The mutable state of the page as the script sees it: the `.page-content`
elements, the institution/project cards, the modal triple, the history entries
pushed so far (each entry's `state.page`, its URL fragment being `'#' + page`),
the current `location.hash` (including the leading `#`, or `""`), and the
`#current-year` span's text (`none` when the element is absent). -/
structure ScriptState where
  pages : List Page
  cards : List Card
  modal : ModalState
  history : List String
  urlHash : String
  footerYear : Option String
deriving DecidableEq, Repr

/-- Source `switchToPage(targetPageId)` in full: update the page classes, push a
history entry `\x7bpage: targetPageId\x7d` with URL `'#' + targetPageId`. -/
def switchToPageS (tid : String) (s : ScriptState) : ScriptState :=
  { s with
    pages := switchToPage tid s.pages
    history := s.history ++ [tid]
    urlHash := "#" ++ tid }

/-- The click handler of a navigation button whose `data-page` attribute is
`dataPage`: `preventDefault()` then `switchToPage(dataPage)`. -/
def navButtonClick (dataPage : String) (s : ScriptState) : ScriptState :=
  switchToPageS dataPage s

/-- The `validPages` list of `handleInitialPageLoad`. -/
def validPages : List String :=
  ["home", "work-experience", "training", "publications"]

/-- Source `handleInitialPageLoad()`: take the location hash without its `#`; if it is
truthy, in `validPages`, and an element with that id exists, switch to it,
otherwise switch to `home`. -/
def handleInitialPageLoad (s : ScriptState) : ScriptState :=
  let urlHash := s.urlHash.drop 1
  if (!urlHash.isEmpty && validPages.contains urlHash)
      && s.pages.any (fun p => p.id == urlHash) then
    switchToPageS urlHash s
  else
    switchToPageS "home" s

/-- The `popstate` listener: if the popped entry carries a truthy
`state.page`, switch to it, else switch to `home`.  The argument is the popped
entry's `state.page` (`none` for a null state). -/
def popstateHandler (eventStatePage : Option String) (s : ScriptState) : ScriptState :=
  match eventStatePage with
  | some pid => if pid.isEmpty then switchToPageS "home" s else switchToPageS pid s
  | none => switchToPageS "home" s

/-- Source `openPdfModal` lifted to the whole-script state (effects dropped). -/
def openPdfModalS (pdfPath : Option String) (s : ScriptState) : ScriptState :=
  { s with modal := (openPdfModal pdfPath s.modal).1 }

/-- Source `closePdfModal` lifted to the whole-script state. -/
def closePdfModalS (s : ScriptState) : ScriptState :=
  { s with modal := (closePdfModal s.modal).1 }

/-- Source `toggleInstitutionCard` lifted to the whole-script state. -/
def toggleInstitutionCardS (i : Nat) (s : ScriptState) : ScriptState :=
  { s with cards := toggleInstitutionCard i s.cards }

/-- The `if (currentYearSpan) currentYearSpan.textContent = new Date().getFullYear()`
line of the DOMContentLoaded setup. -/
def setCurrentYear (year : Nat) (s : ScriptState) : ScriptState :=
  match s.footerYear with
  | none => s
  | some _ => { s with footerYear := some (toString year) }

/-- Source `workCards.forEach` current-role marking lifted to the whole-script
state. -/
def markCurrentRoleS (s : ScriptState) : ScriptState :=
  { s with cards := markCurrentRole s.cards }

/-- The DOMContentLoaded initialisation restricted to the state modelled here,
in source order: set the footer year (`script.js:52-54`), run
`handleInitialPageLoad()` (line 123), then mark the risk-analyst work card
with `current-role` (lines 419-421).  (The same setup also registers
listeners, sets accessibility and external-link attributes, and writes initial
animation styles — state outside the modelled fields.) -/
def loadTimeInit (year : Nat) (s : ScriptState) : ScriptState :=
  markCurrentRoleS (handleInitialPageLoad (setCurrentYear year s))

/-- The triggers under which the script runs code. -/
inductive Trigger where
  | domContentLoaded
  | click
  | keypress
  | mouseenter
  | mouseleave
  | intersection
  | popstateEv
  | resize
  | windowError
deriving DecidableEq, Repr

/-- Which triggers are user events in the sense of the specification (click,
keypress, mouseenter/leave, scroll intersection). -/
def isUserEvent : Trigger → Bool
  | .click => true
  | .keypress => true
  | .mouseenter => true
  | .mouseleave => true
  | .intersection => true
  | _ => false

/-!  ## Concrete states used by witnesses and counterexamples  -/

/-- A projects-grid project card at `top = 0`, collapsed, with both a
`.modules-content` and an `.expand-icon i` descendant. -/
def sampleProjectCard : Card :=
  { top := 0, classes := [], modulesContent := some "none",
    expandIcon := some "rotate(0deg)", inProjectsGrid := true,
    isWorkCard := false, hasHeader := true, dataInstitution := none }

/-- A work-experience card (outside any `.projects-grid`), collapsed, with both
descendants, carrying the `risk-analyst` institution attribute. -/
def sampleWorkCard : Card :=
  { top := 0, classes := [], modulesContent := some "none",
    expandIcon := some "rotate(0deg)", inProjectsGrid := false,
    isWorkCard := true, hasHeader := true, dataInstitution := some "risk-analyst" }

/-- A closed modal. -/
def closedModal : ModalState :=
  { modalDisplay := "none", viewerSrc := "", bodyOverflow := "auto" }

/-- A fresh page state: home active, the location hash pointing at
`training`, no history yet. -/
def sampleLoadState : ScriptState :=
  { pages := [{ id := "home", classes := ["active"] }, { id := "training", classes := [] }]
    cards := [sampleWorkCard, sampleProjectCard]
    modal := closedModal
    history := []
    urlHash := "#training"
    footerYear := some "2024" }

/-!  ## Helper lemmas  -/

lemma mem_addClass_self (cs : List String) (c : String) : c ∈ addClass cs c := by
  unfold addClass
  split
  · next h => simpa using h
  · simp

lemma not_active_clearActive (pages : List Page) :
    ∀ q ∈ clearActive pages, "active" ∉ q.classes := by
  intro q hq
  simp only [clearActive, List.mem_map] at hq
  obtain ⟨p, _, rfl⟩ := hq
  simp [removeClass]

lemma clearActive_map_id (pages : List Page) :
    (clearActive pages).map Page.id = pages.map Page.id := by
  induction pages with
  | nil => rfl
  | cons p ps ih => simpa [clearActive] using ih

lemma addActiveById_active_iff (tid : String) :
    ∀ l : List Page,
      (∀ q ∈ l, "active" ∉ q.classes) →
      (l.map Page.id).Nodup →
      (∃ p ∈ l, p.id = tid) →
      ∀ q ∈ addActiveById tid l, ("active" ∈ q.classes ↔ q.id = tid)
  | [] => by
    intro _ _ hex
    simp at hex
  | p :: ps => by
    intro hno hnodup hex q hq
    have hnodup' : p.id ∉ ps.map Page.id ∧ (ps.map Page.id).Nodup :=
      List.nodup_cons.mp (by simpa using hnodup)
    by_cases hp : p.id = tid
    · rw [addActiveById, if_pos hp] at hq
      rcases List.mem_cons.mp hq with rfl | hq'
      · exact ⟨fun _ => hp, fun _ => mem_addClass_self _ _⟩
      · have hqcl : "active" ∉ q.classes := hno q (List.mem_cons_of_mem _ hq')
        have hqid : q.id ≠ tid := by
          intro hcontra
          apply hnodup'.1
          have hmem : q.id ∈ ps.map Page.id := List.mem_map_of_mem Page.id hq'
          rwa [hcontra, ← hp] at hmem
        exact ⟨fun h => absurd h hqcl, fun h => absurd h hqid⟩
    · rw [addActiveById, if_neg hp] at hq
      rcases List.mem_cons.mp hq with rfl | hq'
      · exact ⟨fun h => absurd h (hno q (List.mem_cons_self _ _)),
               fun h => absurd h hp⟩
      · have hex' : ∃ w ∈ ps, w.id = tid := by
          obtain ⟨w, hw, hwid⟩ := hex
          rcases List.mem_cons.mp hw with rfl | hw'
          · exact absurd hwid hp
          · exact ⟨w, hw', hwid⟩
        exact addActiveById_active_iff tid ps
          (fun r hr => hno r (List.mem_cons_of_mem _ hr)) hnodup'.2 hex' q hq'

lemma switchToPage_active_iff (tid : String) (pages : List Page)
    (hnodup : (pages.map Page.id).Nodup)
    (hex : ∃ p ∈ pages, p.id = tid) :
    ∀ q ∈ switchToPage tid pages, ("active" ∈ q.classes ↔ q.id = tid) := by
  apply addActiveById_active_iff
  · exact not_active_clearActive pages
  · rw [clearActive_map_id]; exact hnodup
  · obtain ⟨p, hp, hpid⟩ := hex
    exact ⟨{ p with classes := removeClass p.classes "active" },
           List.mem_map_of_mem _ hp, hpid⟩

lemma validPages_nonempty : ∀ v ∈ validPages, v.isEmpty = false := by decide

/-!  ## Claim theorems  -/

/-- Claim C9: `closePdfModal` is idempotent and its result does not depend on
the prior state: whatever the modal state was before the call (opened or not,
any body overflow), afterwards the modal display is `none`, the viewer `src` is
empty, and the body overflow is `auto`; a second call changes nothing more. -/
theorem closePdfModal_idempotent (st st2 : ModalState) :
    (closePdfModal st).1
      = { modalDisplay := "none", viewerSrc := "", bodyOverflow := "auto" }
    ∧ (closePdfModal (closePdfModal st).1).1 = (closePdfModal st).1
    ∧ (closePdfModal st).1 = (closePdfModal st2).1 :=
  ⟨rfl, rfl, rfl⟩

/-- Claim C8: `openPdfModal` is atomic on error: for every falsy PDF path the
call returns right after the alert, leaving the modal display, the viewer
`src`, and the body overflow untouched. -/
theorem openPdfModal_atomic_on_falsy (p : Option String) (st : ModalState)
    (h : falsyStr p = true) :
    (openPdfModal p st).1 = st
    ∧ (openPdfModal p st).2 = [Effect.alertShown pdfMissingAlertMsg] := by
  cases p with
  | none => exact ⟨rfl, rfl⟩
  | some s =>
    simp only [falsyStr] at h
    simp [openPdfModal, h]

/-- Witness for C8 at the concrete input `none` with a closed modal. -/
theorem openPdfModal_atomic_on_falsy_witness :
    falsyStr none = true
    ∧ (openPdfModal none closedModal).1 = closedModal
    ∧ (openPdfModal none closedModal).2 = [Effect.alertShown pdfMissingAlertMsg] :=
  ⟨rfl, openPdfModal_atomic_on_falsy none closedModal rfl⟩

/-- Claim C2: user-facing failure surfacing is exactly: an alert is raised by
`openPdfModal` precisely when the PDF path is falsy and by
`openGitHubRepository` precisely when the URL is falsy (and never by
`closePdfModal`); the PDF frame error handler replaces the viewer content with
the static fallback whatever it held; and the global window error handler
produces nothing but console logs. -/
theorem failureSurfacing_spec :
    (∀ p st, ((openPdfModal p st).2.any Effect.isAlert) = falsyStr p)
    ∧ (∀ u, ((openGitHubRepository u).any Effect.isAlert) = falsyStr u)
    ∧ (∀ st, ((closePdfModal st).2.any Effect.isAlert) = false)
    ∧ (∀ prev, pdfFrameErrorHandler prev = pdfLoadErrorFallback)
    ∧ (∀ e, (windowErrorHandler e).all Effect.isLog = true) := by
  refine ⟨?_, ?_, fun _ => rfl, fun _ => rfl, fun _ => rfl⟩
  · intro p st
    cases p with
    | none => rfl
    | some s =>
      cases h : s.isEmpty <;> simp [openPdfModal, falsyStr, h, Effect.isAlert]
  · intro u
    cases u with
    | none => rfl
    | some s =>
      cases h : s.isEmpty <;> simp [openGitHubRepository, falsyStr, h, Effect.isAlert]

/-- Claim C3: clicking a navigation button whose `data-page` is `P` first
strips `active` from every `.page-content` element and then marks the element
with id `P`; provided the page ids are distinct (an HTML invariant) and the
page exists, afterwards `P` is the unique active page. -/
theorem navButtonClick_unique_active (P : String) (s : ScriptState)
    (hnodup : (s.pages.map Page.id).Nodup)
    (hex : ∃ p ∈ s.pages, p.id = P) :
    (∀ q ∈ clearActive s.pages, "active" ∉ q.classes)
    ∧ (navButtonClick P s).pages = addActiveById P (clearActive s.pages)
    ∧ ∀ q ∈ (navButtonClick P s).pages, ("active" ∈ q.classes ↔ q.id = P) :=
  ⟨not_active_clearActive s.pages, rfl, switchToPage_active_iff P s.pages hnodup hex⟩

/-- Witness for C3: clicking the `training` button on a state where `home` is
active makes `training` the unique active page. -/
theorem navButtonClick_unique_active_witness :
    (∃ p ∈ sampleLoadState.pages, p.id = "training")
    ∧ ∀ q ∈ (navButtonClick "training" sampleLoadState).pages,
        ("active" ∈ q.classes ↔ q.id = "training") :=
  ⟨by decide,
   (navButtonClick_unique_active "training" sampleLoadState (by decide) (by decide)).2.2⟩

/-- Claim C4: navigation is hash routing.  On initial load, a hash naming one
of the four valid pages whose element exists activates that page, and any
other hash (including none) activates `home`; every page switch pushes a
history entry whose URL fragment is `#` followed by the page id; and the
`popstate` handler restores the popped entry's stored page, falling back to
`home` when the entry carries none. -/
theorem hashRouting_spec (s : ScriptState)
    (hnodup : (s.pages.map Page.id).Nodup) :
    ((validPages.contains (s.urlHash.drop 1)
        && s.pages.any (fun p => p.id == s.urlHash.drop 1)) = true →
      handleInitialPageLoad s = switchToPageS (s.urlHash.drop 1) s
      ∧ ∀ q ∈ (handleInitialPageLoad s).pages,
          ("active" ∈ q.classes ↔ q.id = s.urlHash.drop 1))
    ∧ ((validPages.contains (s.urlHash.drop 1)
        && s.pages.any (fun p => p.id == s.urlHash.drop 1)) = false →
      handleInitialPageLoad s = switchToPageS "home" s)
    ∧ (∀ tid, (switchToPageS tid s).urlHash = "#" ++ tid
        ∧ (switchToPageS tid s).history = s.history ++ [tid])
    ∧ (∀ pid, popstateHandler (some pid) s
        = if pid.isEmpty then switchToPageS "home" s else switchToPageS pid s)
    ∧ popstateHandler none s = switchToPageS "home" s := by
  refine ⟨?_, ?_, fun _ => ⟨rfl, rfl⟩, fun _ => rfl, rfl⟩
  · intro hc
    obtain ⟨hcon, hany⟩ := Bool.and_eq_true_iff.mp hc
    have hmem : s.urlHash.drop 1 ∈ validPages := by simpa using hcon
    have hne : (s.urlHash.drop 1).isEmpty = false := validPages_nonempty _ hmem
    have heq : handleInitialPageLoad s = switchToPageS (s.urlHash.drop 1) s := by
      simp only [handleInitialPageLoad]
      rw [hne, hcon, hany]
      simp
    refine ⟨heq, ?_⟩
    rw [heq]
    apply switchToPage_active_iff _ _ hnodup
    obtain ⟨p, hp, hpid⟩ := by simpa [List.any_eq_true] using hany
    exact ⟨p, hp, by simpa using hpid⟩
  · intro hc
    have hcode : ((!(s.urlHash.drop 1).isEmpty
        && validPages.contains (s.urlHash.drop 1))
        && s.pages.any (fun p => p.id == s.urlHash.drop 1)) = false := by
      rw [Bool.and_assoc, hc, Bool.and_false]
    simp only [handleInitialPageLoad]
    rw [hcode]
    simp

/-- Witness for C4: with location hash `#training` and a document containing
`home` and `training`, the initial load activates `training`. -/
theorem hashRouting_spec_witness :
    handleInitialPageLoad sampleLoadState
      = switchToPageS (sampleLoadState.urlHash.drop 1) sampleLoadState
    ∧ ∀ q ∈ (handleInitialPageLoad sampleLoadState).pages,
        ("active" ∈ q.classes ↔ q.id = sampleLoadState.urlHash.drop 1) :=
  (hashRouting_spec sampleLoadState (by decide)).1 (by decide)

/-- Claim C1: `getCardsInSameRow` returns exactly the cards whose floored
bounding-box `top` differs from the target's floored `top` by at most the
tolerance of 50, and `expandCardsInRow` applies the expansion step to each of
them, which — on a returned card not already `expanded` with both a
`.modules-content` and an `.expand-icon i` descendant — adds the `expanded`
class, shows the content (`display: block`), and rotates the icon by 180°. -/
theorem rowSync_spec (target : Card) (cards : List Card) :
    (∀ c, c ∈ getCardsInSameRow target cards
        ↔ (c ∈ cards ∧ |target.top.floor - c.top.floor| ≤ 50))
    ∧ expandCardsInRow target cards = (getCardsInSameRow target cards).map expandCard
    ∧ (∀ c, c ∈ getCardsInSameRow target cards →
        c.classes.contains "expanded" = false →
        c.modulesContent.isSome = true →
        c.expandIcon.isSome = true →
        ("expanded" ∈ (expandCard c).classes
          ∧ (expandCard c).modulesContent = some "block"
          ∧ (expandCard c).expandIcon = some "rotate(180deg)")) := by
  refine ⟨?_, rfl, ?_⟩
  · intro c
    simp [getCardsInSameRow, inSameRow, List.mem_filter]
  · intro c _ hexp hmc hei
    obtain ⟨d, hd⟩ := Option.isSome_iff_exists.mp hmc
    obtain ⟨e, he⟩ := Option.isSome_iff_exists.mp hei
    have h1 : expandCard c
        = { c with classes := addClass c.classes "expanded",
                   modulesContent := some "block",
                   expandIcon := some "rotate(180deg)" } := by
      rw [expandCard, hexp, hd, he]
      simp
    rw [h1]
    exact ⟨mem_addClass_self _ _, rfl, rfl⟩

/-- Witness for C1: a single collapsed card with both descendants sits in its
own row and is expanded. -/
theorem rowSync_spec_witness :
    sampleProjectCard ∈ getCardsInSameRow sampleProjectCard [sampleProjectCard]
    ∧ ("expanded" ∈ (expandCard sampleProjectCard).classes
      ∧ (expandCard sampleProjectCard).modulesContent = some "block"
      ∧ (expandCard sampleProjectCard).expandIcon = some "rotate(180deg)") :=
  ⟨by decide,
   (rowSync_spec sampleProjectCard [sampleProjectCard]).2.2 sampleProjectCard
     (by decide) (by decide) (by decide) (by decide)⟩

/-- Claim C10: for every card collection containing the target, the target is
among its own row cards (its row distance to itself is 0 ≤ 50), so
`expandCardsInRow` leaves the clicked card carrying the `expanded` class
whenever it has both a `.modules-content` and an `.expand-icon i` descendant
— both among the returned row cards and at its position in the updated
collection. -/
theorem clickedCard_expanded (target : Card) (cards : List Card)
    (hmem : target ∈ cards)
    (hmc : target.modulesContent.isSome = true)
    (hei : target.expandIcon.isSome = true) :
    target ∈ getCardsInSameRow target cards
    ∧ "expanded" ∈ (expandCard target).classes
    ∧ expandCard target ∈ expandCardsInRow target cards
    ∧ ∀ i : Nat, cards[i]? = some target →
        (expandRowUpdate target cards)[i]? = some (expandCard target) := by
  have hrow : inSameRow target target = true := by
    simp [inSameRow]
  have hm : target ∈ getCardsInSameRow target cards :=
    List.mem_filter.mpr ⟨hmem, hrow⟩
  have hexp : "expanded" ∈ (expandCard target).classes := by
    obtain ⟨d, hd⟩ := Option.isSome_iff_exists.mp hmc
    obtain ⟨e, he⟩ := Option.isSome_iff_exists.mp hei
    rw [expandCard]
    cases hc : target.classes.contains "expanded" with
    | false =>
      rw [hd, he]
      simpa using mem_addClass_self target.classes "expanded"
    | true =>
      simpa using hc
  refine ⟨hm, hexp, List.mem_map_of_mem _ hm, ?_⟩
  intro i hi
  rw [expandRowUpdate, List.getElem?_map, hi]
  simp [hrow]

/-- Witness for C10 on a two-card collection. -/
theorem clickedCard_expanded_witness :
    sampleProjectCard ∈ getCardsInSameRow sampleProjectCard [sampleWorkCard, sampleProjectCard]
    ∧ "expanded" ∈ (expandCard sampleProjectCard).classes
    ∧ expandCard sampleProjectCard
        ∈ expandCardsInRow sampleProjectCard [sampleWorkCard, sampleProjectCard]
    ∧ ∀ i : Nat, [sampleWorkCard, sampleProjectCard][i]? = some sampleProjectCard →
        (expandRowUpdate sampleProjectCard [sampleWorkCard, sampleProjectCard])[i]?
          = some (expandCard sampleProjectCard) :=
  clickedCard_expanded sampleProjectCard [sampleWorkCard, sampleProjectCard]
    (by decide) (by decide) (by decide)

/-- Counterexample to claim C5 (the only mutable state is CSS class membership
and a modal visibility flag): `openPdfModal` on a truthy path changes the PDF
viewer's `src` and the body's `overflow` — neither is a class membership or the
modal's visibility. -/
theorem openPdfModal_changes_more_than_classes :
    (openPdfModalS (some "documents/thesis.pdf") sampleLoadState).modal.viewerSrc
        ≠ sampleLoadState.modal.viewerSrc
    ∧ (openPdfModalS (some "documents/thesis.pdf") sampleLoadState).modal.bodyOverflow
        ≠ sampleLoadState.modal.bodyOverflow := by
  decide

/-- Claim C5 as amended: the script's mutable state is not limited to CSS
class membership and a single modal visibility flag — `openPdfModal` also sets
the PDF viewer's `src` and the body's `overflow`, page switches push history
entries and move the location hash, and the script elsewhere writes inline
styles (on the cards themselves, their descendants, and `.skill-category`
elements), `aria-expanded`/`tabindex`/`role`/`target`/`rel` attributes, and the
viewer parent's markup.  What does hold is per-operation confinement over the
modelled state: each operation leaves every state component other than its own
untouched — the modal functions change only the modal triple, page switching
only the page class lists plus history and hash, card toggling and the
current-role marking only the cards, and the year setter only the footer
text. -/
theorem operation_frame_spec :
    ∀ (p : Option String) (tid : String) (y i : Nat) (s : ScriptState),
      ((openPdfModalS p s).pages = s.pages ∧ (openPdfModalS p s).cards = s.cards
        ∧ (openPdfModalS p s).history = s.history
        ∧ (openPdfModalS p s).urlHash = s.urlHash
        ∧ (openPdfModalS p s).footerYear = s.footerYear)
      ∧ ((closePdfModalS s).pages = s.pages ∧ (closePdfModalS s).cards = s.cards
        ∧ (closePdfModalS s).history = s.history
        ∧ (closePdfModalS s).urlHash = s.urlHash
        ∧ (closePdfModalS s).footerYear = s.footerYear)
      ∧ ((switchToPageS tid s).modal = s.modal ∧ (switchToPageS tid s).cards = s.cards
        ∧ (switchToPageS tid s).footerYear = s.footerYear)
      ∧ ((toggleInstitutionCardS i s).pages = s.pages
        ∧ (toggleInstitutionCardS i s).modal = s.modal
        ∧ (toggleInstitutionCardS i s).history = s.history
        ∧ (toggleInstitutionCardS i s).urlHash = s.urlHash
        ∧ (toggleInstitutionCardS i s).footerYear = s.footerYear)
      ∧ ((markCurrentRoleS s).pages = s.pages ∧ (markCurrentRoleS s).modal = s.modal
        ∧ (markCurrentRoleS s).history = s.history
        ∧ (markCurrentRoleS s).urlHash = s.urlHash
        ∧ (markCurrentRoleS s).footerYear = s.footerYear)
      ∧ ((setCurrentYear y s).pages = s.pages ∧ (setCurrentYear y s).cards = s.cards
        ∧ (setCurrentYear y s).modal = s.modal
        ∧ (setCurrentYear y s).history = s.history
        ∧ (setCurrentYear y s).urlHash = s.urlHash) := by
  intro p tid y i s
  refine ⟨⟨rfl, rfl, rfl, rfl, rfl⟩, ⟨rfl, rfl, rfl, rfl, rfl⟩,
    ⟨rfl, rfl, rfl⟩, ⟨rfl, rfl, rfl, rfl, rfl⟩, ⟨rfl, rfl, rfl, rfl, rfl⟩,
    ?_, ?_, ?_, ?_, ?_⟩ <;>
    cases h : s.footerYear <;> simp [setCurrentYear, h]

/-- Counterexample to claim C6 (each card's handler touches only that card's
own subtree): clicking the header of one collapsed projects-grid card expands
the other card of its row as well — the entry at index 1 is mutated by a click
on the card at index 0. -/
theorem rowToggle_touches_sibling_card :
    (toggleInstitutionCard 0 [sampleProjectCard, sampleProjectCard])[1]?
      ≠ some sampleProjectCard := by
  decide

/-- Claim C6 as amended: a click on the header of a card outside the
`.projects-grid` mutates no card but the clicked one; a click on a
projects-grid card confines its mutations (and the animations its timers run)
to the projects-grid cards of the same row — every card that is not a
projects-grid card in the clicked card's row is untouched. -/
theorem toggleInstitutionCard_frame (i : Nat) (cards : List Card) (card : Card)
    (hcard : cards[i]? = some card) :
    (card.inProjectsGrid = false →
      ∀ j : Nat, j ≠ i → (toggleInstitutionCard i cards)[j]? = cards[j]?)
    ∧ (card.inProjectsGrid = true →
      ∀ (j : Nat) (c : Card), cards[j]? = some c →
        (c.inProjectsGrid && inSameRow card c) = false →
        (toggleInstitutionCard i cards)[j]? = cards[j]?) := by
  constructor
  · intro hng j hj
    rw [toggleInstitutionCard.eq_def, hcard]
    simp only [hng]
    simp [List.getElem?_set_ne (Ne.symm hj)]
  · intro hpg j c hc hcond
    rw [toggleInstitutionCard.eq_def, hcard]
    simp only [hpg]
    cases hexp : card.classes.contains "expanded" <;>
      simp [List.getElem?_map, hc, hcond] <;>
      (intro h1 h2
       rw [h1, h2] at hcond
       simp at hcond)

/-- Witness for the amended C6: a work card's toggle leaves the project card
next to it alone, and a projects-grid toggle leaves the non-grid work card
alone. -/
theorem toggleInstitutionCard_frame_witness :
    (toggleInstitutionCard 0 [sampleWorkCard, sampleProjectCard])[1]?
        = [sampleWorkCard, sampleProjectCard][1]?
    ∧ (toggleInstitutionCard 1 [sampleWorkCard, sampleProjectCard])[0]?
        = [sampleWorkCard, sampleProjectCard][0]? :=
  ⟨(toggleInstitutionCard_frame 0 [sampleWorkCard, sampleProjectCard] sampleWorkCard
      (by decide)).1 (by decide) 1 (by decide),
   (toggleInstitutionCard_frame 1 [sampleWorkCard, sampleProjectCard] sampleProjectCard
      (by decide)).2 (by decide) 0 sampleWorkCard (by decide) (by decide)⟩

/-- Counterexample to claim C7 (DOM state is mutated only inside handlers for
user events): the DOMContentLoaded initialisation — not a user event — already
mutates the document: it rewrites the footer year, activates the initial page
(pushing a history entry), and adds `current-role` to the risk-analyst work
card. -/
theorem loadInit_mutates_without_userEvent :
    isUserEvent Trigger.domContentLoaded = false
    ∧ loadTimeInit 2026 sampleLoadState ≠ sampleLoadState := by
  exact ⟨rfl, by decide⟩

/-- Claim C7 as amended: besides the user-event handlers, the DOMContentLoaded
initialisation mutates DOM state, and within the modelled state only in its
designated places: it sets the footer year (when the span exists), performs
the initial page switch with its history push, and changes card state exactly
by the `current-role` marking — every card that is not a headed work card with
`data-institution` equal to `risk-analyst` is untouched, and the modal is
untouched.  (The setup additionally writes accessibility attributes,
external-link `target`/`rel` attributes, and initial animation styles, which
lie outside the modelled fields.) -/
theorem loadTimeInit_frame :
    ∀ (y : Nat) (s : ScriptState),
      (loadTimeInit y s).cards = markCurrentRole s.cards
      ∧ (∀ (j : Nat) (c : Card), s.cards[j]? = some c →
          (c.isWorkCard && c.hasHeader
            && c.dataInstitution == some "risk-analyst") = false →
          (loadTimeInit y s).cards[j]? = s.cards[j]?)
      ∧ (loadTimeInit y s).modal = s.modal
      ∧ (loadTimeInit y s).footerYear
          = (if s.footerYear.isSome then some (toString y) else none)
      ∧ isUserEvent Trigger.domContentLoaded = false := by
  intro y s
  have hcards : ∀ s' : ScriptState, (handleInitialPageLoad s').cards = s'.cards := by
    intro s'
    simp only [handleInitialPageLoad]
    split <;> rfl
  have hmodal : ∀ s' : ScriptState, (handleInitialPageLoad s').modal = s'.modal := by
    intro s'
    simp only [handleInitialPageLoad]
    split <;> rfl
  have hfoot : ∀ s' : ScriptState, (handleInitialPageLoad s').footerYear = s'.footerYear := by
    intro s'
    simp only [handleInitialPageLoad]
    split <;> rfl
  have hycards : (setCurrentYear y s).cards = s.cards := by
    cases h : s.footerYear <;> simp [setCurrentYear, h]
  have hymodal : (setCurrentYear y s).modal = s.modal := by
    cases h : s.footerYear <;> simp [setCurrentYear, h]
  have hmark : (loadTimeInit y s).cards = markCurrentRole s.cards := by
    show markCurrentRole (handleInitialPageLoad (setCurrentYear y s)).cards
      = markCurrentRole s.cards
    rw [hcards, hycards]
  refine ⟨hmark, ?_, ?_, ?_, rfl⟩
  · intro j c hc hcond
    rw [hmark, markCurrentRole, List.getElem?_map, hc, Option.map_some']
    rw [hcond]
    simp
  · show (handleInitialPageLoad (setCurrentYear y s)).modal = s.modal
    rw [hmodal, hymodal]
  · show (handleInitialPageLoad (setCurrentYear y s)).footerYear
      = (if s.footerYear.isSome then some (toString y) else none)
    rw [hfoot]
    cases h : s.footerYear <;> simp [setCurrentYear, h]

/-- Witness for the amended C7: the load-time initialisation leaves the
non-work project card of the sample state untouched. -/
theorem loadTimeInit_frame_witness :
    sampleLoadState.cards[1]? = some sampleProjectCard
    ∧ (sampleProjectCard.isWorkCard && sampleProjectCard.hasHeader
        && sampleProjectCard.dataInstitution == some "risk-analyst") = false
    ∧ (loadTimeInit 2026 sampleLoadState).cards[1]? = sampleLoadState.cards[1]? :=
  ⟨by decide, by decide,
   (loadTimeInit_frame 2026 sampleLoadState).2.1 1 sampleProjectCard
     (by decide) (by decide)⟩

end Portfolio
